import Mathlib

/-!
Shallow embedding of the styxdefs-js runtime core: the `DryRunner`
reference backend (src/dryRunner.ts), the global runner registry
(`getGlobalRunner` / `setGlobalRunner`), and the `StyxRuntimeError`
message formatting (types module).

Object identity of the TypeScript heap is made explicit: every runner
object carries an allocation identifier (`ref : Nat`); two references are
the same object exactly when their identifiers coincide.  Mutation of an
object's fields is modelled by explicit state passing: a method on `this`
becomes a function from the receiver's state to the updated state, paired
with the method's return value.
-/

/-- Static tool metadata, from the `Metadata` interface: `id`, `name`,
`package` (required strings), optional `citations` list and optional
`container_image_tag`. -/
structure Metadata where
  id : String
  name : String
  package : String
  citations : Option (List String)
  container_image_tag : Option String
deriving DecidableEq, Repr

/-- State of a `DryRunner` object: the three recorded fields, all
initialised to `null` (`none`), plus the allocation identifier `ref`
giving the object its heap identity.  `P` is the type of the tool
parameter record (`object` in the source). -/
structure DryRunner (P : Type) where
  ref : Nat
  lastCargs : Option (List String)
  lastMetadata : Option Metadata
  lastParams : Option P

/-- The `DryRunner` constructor: all three recorded fields start as
`null`. -/
def DryRunner.new (P : Type) (ref : Nat) : DryRunner P :=
  { ref := ref, lastCargs := none, lastMetadata := none, lastParams := none }

/-- `startExecution(metadata)`: sets `this.lastMetadata = metadata` and
returns `this`.  The returned value is the heap reference of the
`Execution` object handed back to the caller; the source returns the
receiver itself, so that reference is `self.ref`. -/
def DryRunner.startExecution (self : DryRunner P) (metadata : Metadata) :
    DryRunner P × Nat :=
  ({ self with lastMetadata := some metadata }, self.ref)

/-- `inputFile(hostFile, resolveParent, mutable)`: the body is
`return hostFile.toString()`; on a string, `toString` is the identity.
The receiver is not written to. -/
def DryRunner.inputFile (self : DryRunner P) (hostFile : String)
    (resolveParent : Bool) (mutable : Bool) : DryRunner P × String :=
  (self, hostFile)

/-- `outputFile(localFile, optional)`: the body is `return localFile`.
The receiver is not written to. -/
def DryRunner.outputFile (self : DryRunner P) (localFile : String)
    (optional : Bool) : DryRunner P × String :=
  (self, localFile)

/-- `params(params)`: sets `this.lastParams = params` and returns
`params` unchanged. -/
def DryRunner.params (self : DryRunner P) (p : P) : DryRunner P × P :=
  ({ self with lastParams := some p }, p)

/-- A call made by a backend to one of the two output handlers supplied
to `run`, identifying the handler and the chunk passed to it.  `H` is
the type of handler values. -/
inductive CallbackCall (H : Type) where
  | stdoutCall (handler : H) (output : String)
  | stderrCall (handler : H) (output : String)
deriving DecidableEq, Repr

/-- `run(cargs, handleStdout, handleStderr)`: the body is
`this.lastCargs = cargs;` — it records the argument vector and contains
no call to either handler, so the trace of callback invocations it emits
is empty. -/
def DryRunner.run (self : DryRunner P) (cargs : List String)
    (_handleStdout : Option H) (_handleStderr : Option H) :
    DryRunner P × List (CallbackCall H) :=
  ({ self with lastCargs := some cargs }, [])

/-- What a runner object held by the registry implements: the
`DryRunner` class, or some other `Runner` implementation (identified by
an arbitrary tag). -/
inductive RunnerKind where
  | dryRunner
  | custom (tag : Nat)
deriving DecidableEq, Repr

/-- A runner object as seen by the registry: its heap identity `ref` and
its implementation. -/
structure RunnerObj where
  ref : Nat
  kind : RunnerKind
deriving DecidableEq, Repr

/-- The module-level mutable state of the registry:
`STYX_GLOBAL_RUNNER`, initially `null`, plus the allocation counter used
to give a fresh identity to an object created by `new`. -/
structure RegistryState where
  styxGlobalRunner : Option RunnerObj
  nextRef : Nat
deriving DecidableEq, Repr

/-- `getGlobalRunner()`: if the slot is `null`, stores a freshly
constructed `DryRunner` in it; then returns the slot's content. -/
def getGlobalRunner (s : RegistryState) : RunnerObj × RegistryState :=
  match s.styxGlobalRunner with
  | none =>
      let created : RunnerObj := { ref := s.nextRef, kind := RunnerKind.dryRunner }
      (created, { styxGlobalRunner := some created, nextRef := s.nextRef + 1 })
  | some r => (r, s)

/-- `setGlobalRunner(runner)`: overwrites the slot with the given
runner object. -/
def setGlobalRunner (s : RegistryState) (runner : RunnerObj) : RegistryState :=
  { s with styxGlobalRunner := some runner }

/-- The single-quote character, written via its code point. -/
def squote : Char := Char.ofNat 39

/-- `arg.includes(c)` for a single-character needle `c`: containment of
that character in the string, computed on its character list. -/
def containsChar (arg : String) (c : Char) : Bool :=
  arg.data.contains c

/-- `arg.replace(/"/g, '\\"')`: every double quote in `arg` is replaced by
a backslash followed by a double quote; all other characters are kept. -/
def escapeDQuotes (arg : String) : String :=
  String.mk (arg.data.foldr
    (fun c acc => (if c = '"' then ['\\', '"'] else [c]) ++ acc) [])

/-- The argument renderer inside the `StyxRuntimeError` constructor
("simple implementation of shlex.join"): an element containing a space,
a double quote or a single quote is wrapped in double quotes with every
double quote replaced by a backslash-escaped one; any other element is
kept verbatim. -/
def quoteArg (arg : String) : String :=
  if containsChar arg ' ' || containsChar arg '"' || containsChar arg squote then
    "\"" ++ escapeDQuotes arg ++ "\""
  else
    arg

/-- The message built by the `StyxRuntimeError` constructor from the
optional return code, optional argument vector and optional extra
text. -/
def styxRuntimeErrorMessage (returnCode : Option Int)
    (commandArgs : Option (List String)) (messageExtra : Option String) : String :=
  let message :=
    match returnCode with
    | some code => "Command failed with return code " ++ toString code ++ "."
    | none => "Command failed."
  let message :=
    match commandArgs with
    | some cargs =>
        message ++ "\n- Command args: " ++ String.intercalate " " (cargs.map quoteArg)
    | none => message
  match messageExtra with
  | some extra => message ++ "\n" ++ extra
  | none => message

/-- The `StyxRuntimeError` value: the `Error` fields `name` and
`message` together with the two structured fields stored by the
constructor. -/
structure StyxRuntimeError where
  name : String
  message : String
  returnCode : Option Int
  commandArgs : Option (List String)
deriving DecidableEq, Repr

/-- The `StyxRuntimeError` constructor. -/
def StyxRuntimeError.create (returnCode : Option Int)
    (commandArgs : Option (List String)) (messageExtra : Option String) :
    StyxRuntimeError :=
  { name := "StyxRuntimeError"
    message := styxRuntimeErrorMessage returnCode commandArgs messageExtra
    returnCode := returnCode
    commandArgs := commandArgs }

/-- Concrete metadata value used in counterexamples and witnesses. -/
def toolMetadata1 : Metadata :=
  { id := "tool1", name := "Tool One", package := "pkg"
    citations := none, container_image_tag := none }

/-- Second concrete metadata value, distinct from the first. -/
def toolMetadata2 : Metadata :=
  { id := "tool2", name := "Tool Two", package := "pkg"
    citations := none, container_image_tag := none }

/-- C1: the claim that two `startExecution` calls on the same runner never
return the same object is false for the `DryRunner`: starting from a fresh
`DryRunner` (heap reference 0), two successive `startExecution` calls with
different metadata both return the receiver itself, so the two returned
`Execution` references are equal. -/
theorem dryRunner_startExecution_same_instance_counterexample :
    ((DryRunner.new Unit 0).startExecution toolMetadata1).2 =
      (((DryRunner.new Unit 0).startExecution toolMetadata1).1.startExecution
        toolMetadata2).2 :=
  rfl

/-- C1 (amended): on the `DryRunner`, `startExecution(m)` records `m` as the
last metadata and returns the runner object itself (the returned `Execution`
reference is the receiver's own reference), so successive calls return the
same `Execution` instance rather than distinct ones. -/
theorem dryRunner_startExecution_returns_self (P : Type) (self : DryRunner P)
    (m : Metadata) :
    (self.startExecution m).2 = self.ref ∧
    (self.startExecution m).1.ref = self.ref ∧
    (self.startExecution m).1.lastMetadata = some m :=
  ⟨rfl, rfl, rfl⟩

/-- C2: if the global slot was never set, `getGlobalRunner()` constructs a
`DryRunner`, stores it in the slot and returns it; and in any state, two
consecutive `getGlobalRunner()` calls with no intervening set return the
same runner object. -/
theorem getGlobalRunner_lazy_init_idempotent (s : RegistryState) :
    (s.styxGlobalRunner = none →
      (getGlobalRunner s).1.kind = RunnerKind.dryRunner ∧
      (getGlobalRunner s).2.styxGlobalRunner = some (getGlobalRunner s).1) ∧
    (getGlobalRunner (getGlobalRunner s).2).1 = (getGlobalRunner s).1 := by
  cases h : s.styxGlobalRunner <;> simp [getGlobalRunner, h]

/-- Witness for C2 at the initial registry state (empty slot, counter 0). -/
theorem getGlobalRunner_lazy_init_idempotent_witness :
    (getGlobalRunner ⟨none, 0⟩).1.kind = RunnerKind.dryRunner ∧
    (getGlobalRunner ⟨none, 0⟩).2.styxGlobalRunner =
      some (getGlobalRunner ⟨none, 0⟩).1 :=
  (getGlobalRunner_lazy_init_idempotent ⟨none, 0⟩).1 rfl

/-- C3: after `setGlobalRunner(r)`, `getGlobalRunner()` returns exactly the
object `r`, whatever the registry's prior state. -/
theorem setGlobalRunner_getGlobalRunner_roundtrip (s : RegistryState)
    (r : RunnerObj) :
    (getGlobalRunner (setGlobalRunner s r)).1 = r :=
  rfl

/-- C4: with return code 2 and args `["tool", "--flag", "a b"]` the message
is exactly the line `Command failed with return code 2.` followed by the
line `- Command args: tool --flag "a b"`; in general an argument containing
a space or a double quote is wrapped in double quotes with internal double
quotes backslash-escaped, an argument containing none of space, double
quote or single quote is rendered verbatim, and the rendered arguments are
joined by single spaces. -/
theorem styxRuntimeError_message_format :
    (StyxRuntimeError.create (some 2) (some ["tool", "--flag", "a b"]) none).message =
      "Command failed with return code 2.\n- Command args: tool --flag \"a b\"" ∧
    (∀ arg : String, (containsChar arg ' ' = true ∨ containsChar arg '"' = true) →
      quoteArg arg = "\"" ++ escapeDQuotes arg ++ "\"") ∧
    (∀ arg : String, containsChar arg ' ' = false → containsChar arg '"' = false →
      containsChar arg squote = false → quoteArg arg = arg) ∧
    (∀ cargs : List String,
      (StyxRuntimeError.create (some 2) (some cargs) none).message =
        "Command failed with return code 2." ++ "\n- Command args: " ++
          String.intercalate " " (cargs.map quoteArg)) := by
  refine ⟨by decide, ?_, ?_, ?_⟩
  · intro arg h
    rcases h with h | h <;> simp [quoteArg, h]
  · intro arg h1 h2 h3
    simp [quoteArg, h1, h2, h3]
  · intro cargs
    rfl

/-- Witness for C4: the wrapped and verbatim rendering laws at the concrete
arguments of the claim's example. -/
theorem styxRuntimeError_message_format_witness :
    quoteArg "a b" = "\"" ++ escapeDQuotes "a b" ++ "\"" ∧
    quoteArg "tool" = "tool" :=
  ⟨styxRuntimeError_message_format.2.1 "a b" (Or.inl (by decide)),
   styxRuntimeError_message_format.2.2.1 "tool" (by decide) (by decide) (by decide)⟩

/-- C5: with no return code, no argument vector and no extra text, the
message is exactly `Command failed.`. -/
theorem styxRuntimeError_message_no_fields :
    (StyxRuntimeError.create none none none).message = "Command failed." :=
  rfl

/-- C6: on the `DryRunner`, `inputFile(p, resolveParent, mutable)` returns
exactly `p` for every combination of the flags, and
`outputFile(q, optional)` returns exactly `q` for every value of the
flag. -/
theorem dryRunner_inputFile_outputFile_identity (P : Type) (self : DryRunner P)
    (p q : String) (resolveParent mutable optional : Bool) :
    (self.inputFile p resolveParent mutable).2 = p ∧
    (self.outputFile q optional).2 = q :=
  ⟨rfl, rfl⟩

/-- C7: on the `DryRunner`, `params(x)` returns exactly `x` and records `x`
as the last parameters, retrievable afterward. -/
theorem dryRunner_params_passthrough (P : Type) (self : DryRunner P) (x : P) :
    (self.params x).2 = x ∧ (self.params x).1.lastParams = some x :=
  ⟨rfl, rfl⟩

/-- C8: on the `DryRunner`, `run(cargs, onStdout, onStderr)` records exactly
`cargs` as the last command arguments and emits no callback invocation at
all, whatever handlers are supplied; being a total function into a plain
pair, it returns normally. -/
theorem dryRunner_run_records_cargs (P H : Type) (self : DryRunner P)
    (cargs : List String) (handleStdout handleStderr : Option H) :
    (self.run cargs handleStdout handleStderr).1.lastCargs = some cargs ∧
    (self.run cargs handleStdout handleStderr).2 = ([] : List (CallbackCall H)) :=
  ⟨rfl, rfl⟩

/-- C10: frame conditions on the `DryRunner`'s recorded state:
`startExecution` sets the last metadata and leaves last command arguments
and last parameters unchanged; `inputFile` and `outputFile` leave the whole
object unchanged; `run` sets the last command arguments and leaves last
metadata and last parameters unchanged. -/
theorem dryRunner_frame_conditions (P H : Type) (self : DryRunner P)
    (m : Metadata) (p q : String) (resolveParent mutable optional : Bool)
    (cargs : List String) (handleStdout handleStderr : Option H) :
    ((self.startExecution m).1.lastCargs = self.lastCargs ∧
      (self.startExecution m).1.lastParams = self.lastParams ∧
      (self.startExecution m).1.lastMetadata = some m) ∧
    (self.inputFile p resolveParent mutable).1 = self ∧
    (self.outputFile q optional).1 = self ∧
    ((self.run cargs handleStdout handleStderr).1.lastMetadata = self.lastMetadata ∧
      (self.run cargs handleStdout handleStderr).1.lastParams = self.lastParams ∧
      (self.run cargs handleStdout handleStderr).1.lastCargs = some cargs) :=
  ⟨⟨rfl, rfl, rfl⟩, rfl, rfl, rfl, rfl, rfl⟩

/-- C9: an argument containing a single quote (here `a'b`, built from the
single-quote code point) is wrapped in double quotes with the single quote
kept unescaped; in general every argument containing a single quote is
wrapped, with only double quotes escaped inside the wrapping. -/
theorem quoteArg_single_quote_unescaped :
    quoteArg ("a" ++ String.singleton squote ++ "b") =
      "\"" ++ ("a" ++ String.singleton squote ++ "b") ++ "\"" ∧
    (∀ arg : String, containsChar arg squote = true →
      quoteArg arg = "\"" ++ escapeDQuotes arg ++ "\"") := by
  refine ⟨by decide, ?_⟩
  intro arg h
  simp [quoteArg, h]

/-- Witness for C9: the wrapping law applied at the concrete argument
`a'b`. -/
theorem quoteArg_single_quote_unescaped_witness :
    quoteArg ("a" ++ String.singleton squote ++ "b") =
      "\"" ++ escapeDQuotes ("a" ++ String.singleton squote ++ "b") ++ "\"" :=
  quoteArg_single_quote_unescaped.2 ("a" ++ String.singleton squote ++ "b") (by decide)
